import Mathlib

/-!
Verification of the EveryAlt Chrome extension's core pipeline
(image normalization, captioning client, dispatch orchestrator,
settings/log store) against its natural-language specification.

The JavaScript sources are shallowly embedded: pure computations become
Lean functions; each awaited platform effect (HTTP fetch, image decode,
JPEG encode, message passing, clock reads) is an explicit input to the
function that awaits it, and thrown exceptions become `Except` errors.
JavaScript number arithmetic is modelled exactly over `ℚ`.
-/

namespace EveryAlt

/-- Result of a platform image decode (createImageBitmap): the natural
width and height of the decoded bitmap. -/
structure Bitmap where
  width : ℕ
  height : ℕ
deriving DecidableEq

instance {ε α : Type} [DecidableEq ε] [DecidableEq α] : DecidableEq (Except ε α) := fun x y =>
  match x, y with
  | .ok a, .ok b =>
    if h : a = b then isTrue (by rw [h]) else isFalse (by intro he; injection he; contradiction)
  | .error a, .error b =>
    if h : a = b then isTrue (by rw [h]) else isFalse (by intro he; injection he; contradiction)
  | .ok _, .error _ => isFalse (by intro he; injection he)
  | .error _, .ok _ => isFalse (by intro he; injection he)

/-- A fetched response body as observed by the code: its declared MIME
type, its byte size, and the outcome the platform decode would produce
on it (an `Except` so a decode rejection carries its platform message). -/
structure Blob where
  type : String
  size : ℕ
  decode : Except String Bitmap
deriving DecidableEq

/-- A fetch response: the `ok` flag, the HTTP status and the body. -/
structure Response where
  ok : Bool
  status : ℕ
  blob : Blob
deriving DecidableEq

/-- The observable output of a successful normalization: the data URL
produced by the FileReader together with the canvas dimensions the
resized image was drawn at. -/
structure NormalizedImage where
  dataUrl : String
  width : ℕ
  height : ℕ
deriving DecidableEq

/-- JavaScript String.prototype.startsWith, modelled over the character
list (the platform implementation is an equivalent byte-level prefix
test). -/
def jsStartsWith (s p : String) : Bool := p.data.isPrefixOf s.data

/-- Max pixel dimension (width or height) before sending to OpenAI
(src/lib/utils.js line 6 and src/content-script.js line 268). -/
def MAX_DIMENSION : ℕ := 300

/-- JavaScript Math.round on an exact rational: round half toward
positive infinity. -/
def jround (q : ℚ) : ℤ := ⌊q + 1 / 2⌋

/-- The scaling step shared verbatim by src/lib/utils.js lines 48-55 and
src/content-script.js lines 288-293: if either natural dimension exceeds
MAX_DIMENSION, both are multiplied by MAX_DIMENSION / max(width, height)
and rounded with Math.round; otherwise they pass through unchanged. -/
def normDims (width height : ℕ) : ℕ × ℕ :=
  if MAX_DIMENSION < width ∨ MAX_DIMENSION < height then
    ((jround ((width : ℚ) * ((MAX_DIMENSION : ℚ) / ((max width height : ℕ) : ℚ)))).toNat,
     (jround ((height : ℚ) * ((MAX_DIMENSION : ℚ) / ((max width height : ℕ) : ℚ)))).toNat)
  else
    (width, height)

/-- Size cap of src/lib/utils.js line 39. -/
def MAX_SIZE : ℕ := 20 * 1024 * 1024

/-- src/lib/utils.js, imageUrlToBase64 (lines 18-73). Inputs: the URL
(only its data:-ness is inspected), the fetch response and the
FileReader outcome (`some dataUrl` on load, `none` on reader error).
Data URLs skip the response.ok check; then the declared type must start
with "image/", the size must not exceed MAX_SIZE, the blob is decoded,
scaled via the shared scaling step, drawn at the new size and re-encoded. -/
def imageUrlToBase64 (url : String) (resp : Response) (readerResult : Option String) :
    Except String NormalizedImage :=
  if ¬jsStartsWith url "data:" ∧ resp.ok = false then
    .error ("Failed to fetch image (" ++ toString resp.status ++ ")")
  else if ¬jsStartsWith resp.blob.type "image/" then
    .error ("URL did not return an image (got " ++ resp.blob.type ++ ")")
  else if MAX_SIZE < resp.blob.size then
    .error "Image is too large (over 20 MB). Try a smaller image."
  else
    match resp.blob.decode with
    | .error e => .error e
    | .ok bitmap =>
      match readerResult with
      | some dataUrl =>
        .ok ⟨dataUrl, (normDims bitmap.width bitmap.height).1,
             (normDims bitmap.width bitmap.height).2⟩
      | none => .error "Failed to encode resized image."

/-- src/content-script.js, fetchImageAsBase64 (lines 270-308): the
page-context fallback. Same fetch and size gate (different messages),
no content-type check, then the same scaling, draw and re-encode. -/
def fetchImageAsBase64 (url : String) (resp : Response) (readerResult : Option String) :
    Except String NormalizedImage :=
  if ¬jsStartsWith url "data:" ∧ resp.ok = false then
    .error ("Fetch failed (" ++ toString resp.status ++ ")")
  else if 20 * 1024 * 1024 < resp.blob.size then
    .error "Image is too large (over 20 MB)."
  else
    match resp.blob.decode with
    | .error e => .error e
    | .ok bitmap =>
      match readerResult with
      | some dataUrl =>
        .ok ⟨dataUrl, (normDims bitmap.width bitmap.height).1,
             (normDims bitmap.width bitmap.height).2⟩
      | none => .error "Failed to encode resized image."

lemma jround_monotone {a b : ℚ} (h : a ≤ b) : jround a ≤ jround b :=
  Int.floor_le_floor (by linarith)

lemma jround_nonneg {q : ℚ} (h : 0 ≤ q) : 0 ≤ jround q :=
  Int.le_floor.mpr (by push_cast; linarith)

lemma jround_three_hundred : jround (300 : ℚ) = 300 := by
  unfold jround
  rw [Int.floor_eq_iff]
  norm_num

lemma normDims_big {w h : ℕ} (hbig : 300 < max w h) :
    normDims w h =
      ((jround ((w : ℚ) * (300 / ((max w h : ℕ) : ℚ)))).toNat,
       (jround ((h : ℚ) * (300 / ((max w h : ℕ) : ℚ)))).toNat) := by
  unfold normDims MAX_DIMENSION
  rw [if_pos (lt_max_iff.mp hbig)]
  norm_num

lemma normDims_small {w h : ℕ} (hw : w ≤ 300) (hh : h ≤ 300) : normDims w h = (w, h) := by
  unfold normDims MAX_DIMENSION
  rw [if_neg (by omega)]

lemma normDims_spec_big {w h : ℕ} (hbig : 300 < max w h) :
    max (normDims w h).1 (normDims w h).2 = 300 ∧
    min (normDims w h).1 (normDims w h).2 =
      (jround ((300 : ℚ) * ((min w h : ℕ) : ℚ) / ((max w h : ℕ) : ℚ))).toNat := by
  rcases le_total w h with hwh | hwh
  · rw [normDims_big hbig, max_eq_right hwh, min_eq_left hwh] at *
    have hh : 300 < h := by omega
    have hhQ : (0 : ℚ) < (h : ℚ) := by exact_mod_cast (by omega : 0 < h)
    have hkey : (h : ℚ) * (300 / (h : ℚ)) = 300 := by field_simp
    have hmono : (w : ℚ) * (300 / (h : ℚ)) ≤ (h : ℚ) * (300 / (h : ℚ)) := by
      apply mul_le_mul_of_nonneg_right
      · exact_mod_cast hwh
      · positivity
    have hjh : jround ((h : ℚ) * (300 / (h : ℚ))) = 300 := by
      rw [hkey]; exact jround_three_hundred
    have hjwle : (jround ((w : ℚ) * (300 / (h : ℚ)))).toNat ≤ 300 := by
      rw [Int.toNat_le]
      calc jround ((w : ℚ) * (300 / (h : ℚ))) ≤ jround ((h : ℚ) * (300 / (h : ℚ))) :=
            jround_monotone hmono
        _ = 300 := hjh
    have hjheq : (jround ((h : ℚ) * (300 / (h : ℚ)))).toNat = 300 := by rw [hjh]; rfl
    refine ⟨?_, ?_⟩
    · rw [hjheq]; exact max_eq_right hjwle
    · rw [hjheq, min_eq_left hjwle]
      congr 2
      ring
  · rw [normDims_big hbig, max_eq_left hwh, min_eq_right hwh] at *
    have hw : 300 < w := by omega
    have hwQ : (0 : ℚ) < (w : ℚ) := by exact_mod_cast (by omega : 0 < w)
    have hkey : (w : ℚ) * (300 / (w : ℚ)) = 300 := by field_simp
    have hmono : (h : ℚ) * (300 / (w : ℚ)) ≤ (w : ℚ) * (300 / (w : ℚ)) := by
      apply mul_le_mul_of_nonneg_right
      · exact_mod_cast hwh
      · positivity
    have hjw : jround ((w : ℚ) * (300 / (w : ℚ))) = 300 := by
      rw [hkey]; exact jround_three_hundred
    have hjhle : (jround ((h : ℚ) * (300 / (w : ℚ)))).toNat ≤ 300 := by
      rw [Int.toNat_le]
      calc jround ((h : ℚ) * (300 / (w : ℚ))) ≤ jround ((w : ℚ) * (300 / (w : ℚ))) :=
            jround_monotone hmono
        _ = 300 := hjw
    have hjweq : (jround ((w : ℚ) * (300 / (w : ℚ)))).toNat = 300 := by rw [hjw]; rfl
    refine ⟨?_, ?_⟩
    · rw [hjweq]; exact max_eq_left hjhle
    · rw [hjweq, min_eq_right hjhle]
      congr 2
      ring

lemma imageUrlToBase64_dims {url : String} {resp : Response} {rdr : Option String}
    {out : NormalizedImage} {bm : Bitmap}
    (hdec : resp.blob.decode = .ok bm)
    (hok : imageUrlToBase64 url resp rdr = .ok out) :
    (out.width, out.height) = normDims bm.width bm.height := by
  unfold imageUrlToBase64 at hok
  split at hok
  · exact absurd hok (by simp)
  split at hok
  · exact absurd hok (by simp)
  split at hok
  · exact absurd hok (by simp)
  split at hok
  next e heq => rw [hdec] at heq; exact absurd heq (by simp)
  next bitmap heq =>
    rw [hdec] at heq
    injection heq with hbm
    subst hbm
    split at hok
    next d heq2 =>
      injection hok with hout
      subst hout
      rfl
    next heq2 => exact absurd hok (by simp)

lemma fetchImageAsBase64_dims {url : String} {resp : Response} {rdr : Option String}
    {out : NormalizedImage} {bm : Bitmap}
    (hdec : resp.blob.decode = .ok bm)
    (hok : fetchImageAsBase64 url resp rdr = .ok out) :
    (out.width, out.height) = normDims bm.width bm.height := by
  unfold fetchImageAsBase64 at hok
  split at hok
  · exact absurd hok (by simp)
  split at hok
  · exact absurd hok (by simp)
  split at hok
  next e heq => rw [hdec] at heq; exact absurd heq (by simp)
  next bitmap heq =>
    rw [hdec] at heq
    injection heq with hbm
    subst hbm
    split at hok
    next d heq2 =>
      injection hok with hout
      subst hout
      rfl
    next heq2 => exact absurd hok (by simp)

lemma not_fetch_guard {u : String} {c : Bool}
    (h : jsStartsWith u "data:" = true ∨ c = true) :
    ¬(¬jsStartsWith u "data:" = true ∧ c = false) := by
  rintro ⟨hnd, hfalse⟩
  rcases h with h | h
  · exact hnd h
  · rw [h] at hfalse
    exact Bool.noConfusion hfalse

/-- Claim C1: for every successfully normalized image, in both execution
contexts (imageUrlToBase64 and fetchImageAsBase64), if the larger natural
dimension exceeds 300 px the output's larger dimension equals 300 and the
smaller equals round(300 × minSide/maxSide); if both natural dimensions
are within 300 px the output dimensions equal the input dimensions. -/
theorem c1_resize_contract (url : String) (resp : Response) (rdr : Option String)
    (out : NormalizedImage) (bm : Bitmap)
    (hdec : resp.blob.decode = .ok bm)
    (hok : imageUrlToBase64 url resp rdr = .ok out ∨ fetchImageAsBase64 url resp rdr = .ok out) :
    (300 < max bm.width bm.height →
      max out.width out.height = 300 ∧
      min out.width out.height =
        (jround ((300 : ℚ) * ((min bm.width bm.height : ℕ) : ℚ) /
          ((max bm.width bm.height : ℕ) : ℚ))).toNat) ∧
    (bm.width ≤ 300 → bm.height ≤ 300 → out.width = bm.width ∧ out.height = bm.height) := by
  have hdims : (out.width, out.height) = normDims bm.width bm.height := by
    rcases hok with hok | hok
    · exact imageUrlToBase64_dims hdec hok
    · exact fetchImageAsBase64_dims hdec hok
  have h1 : out.width = (normDims bm.width bm.height).1 := congrArg Prod.fst hdims
  have h2 : out.height = (normDims bm.width bm.height).2 := congrArg Prod.snd hdims
  constructor
  · intro hbig
    rw [h1, h2]
    exact normDims_spec_big hbig
  · intro hw hh
    rw [h1, h2, normDims_small hw hh]
    exact ⟨rfl, rfl⟩

/-- Witness for C1 at a concrete 600×150 image scaled to 300×75 through
the privileged path. -/
theorem c1_resize_contract_witness :
    (⟨"image/png", 100, .ok ⟨600, 150⟩⟩ : Blob).decode = .ok ⟨600, 150⟩ ∧
    300 < max 600 150 ∧
    (max (300 : ℕ) 75 = 300 ∧
      min (300 : ℕ) 75 =
        (jround ((300 : ℚ) * ((min 600 150 : ℕ) : ℚ) / ((max 600 150 : ℕ) : ℚ))).toNat) :=
  ⟨rfl, by norm_num,
    (c1_resize_contract "https://example.com/a.png"
      ⟨true, 200, ⟨"image/png", 100, .ok ⟨600, 150⟩⟩⟩ (some "data:image/jpeg;base64,AA")
      ⟨"data:image/jpeg;base64,AA", 300, 75⟩ ⟨600, 150⟩ rfl
      (Or.inl (by
        have h : normDims 600 150 = (300, 75) := by
          norm_num [normDims, jround, MAX_DIMENSION]
          exact ⟨rfl, rfl⟩
        simp [imageUrlToBase64, jsStartsWith, MAX_SIZE, h]))).1 (by norm_num)⟩

/-- Claim C2 counterexample: the page-context fetchImageAsBase64 performs
no content-type check, so a fetch whose declared type is text/html but
whose bytes decode fine is normalized successfully instead of failing
with a type-mismatch error. -/
theorem c2_counterexample :
    fetchImageAsBase64 "https://example.com/page"
        ⟨true, 200, ⟨"text/html", 100, .ok ⟨10, 10⟩⟩⟩ (some "data:image/jpeg;base64,BB") =
      .ok ⟨"data:image/jpeg;base64,BB", 10, 10⟩ ∧
    ¬(jsStartsWith "text/html" "image/" = true) := by
  exact ⟨by decide, by decide⟩

/-- Claim C2 as amended: only the privileged imageUrlToBase64 path
rejects a non-image declared content type (with the type-mismatch error,
before any decode: the result is the same for every decode outcome since
the theorem quantifies over the whole blob); the page-context
fetchImageAsBase64 never consults the declared type at all. -/
theorem c2_amended_type_gate :
    (∀ (url : String) (resp : Response) (rdr : Option String),
      (jsStartsWith url "data:" ∨ resp.ok = true) →
      ¬jsStartsWith resp.blob.type "image/" →
      imageUrlToBase64 url resp rdr =
        .error ("URL did not return an image (got " ++ resp.blob.type ++ ")")) ∧
    (∀ (url : String) (resp : Response) (rdr : Option String) (t : String),
      fetchImageAsBase64 url ⟨resp.ok, resp.status, ⟨t, resp.blob.size, resp.blob.decode⟩⟩ rdr =
        fetchImageAsBase64 url resp rdr) := by
  constructor
  · intro url resp rdr hfetch htype
    unfold imageUrlToBase64
    rw [if_neg (not_fetch_guard hfetch), if_pos htype]
  · intro url resp rdr t
    rfl

/-- Witness for the amended C2 at a concrete non-image response. -/
theorem c2_amended_type_gate_witness :
    imageUrlToBase64 "https://example.com/page"
        ⟨true, 200, ⟨"text/html", 5, .ok ⟨1, 1⟩⟩⟩ none =
      .error ("URL did not return an image (got " ++ "text/html" ++ ")") :=
  c2_amended_type_gate.1 "https://example.com/page"
    ⟨true, 200, ⟨"text/html", 5, .ok ⟨1, 1⟩⟩⟩ none (Or.inr rfl) (by decide)

/-- Claim C8 counterexample: in the privileged path the content-type
check precedes the size check, so an oversized source whose declared
type is not an image fails with the type-mismatch error, not the
oversize error. -/
theorem c8_counterexample :
    imageUrlToBase64 "https://example.com/big"
        ⟨true, 200, ⟨"text/html", 20 * 1024 * 1024 + 1, .ok ⟨10, 10⟩⟩⟩ (some "d") =
      .error "URL did not return an image (got text/html)" ∧
    MAX_SIZE < 20 * 1024 * 1024 + 1 ∧
    "URL did not return an image (got text/html)" ≠
      "Image is too large (over 20 MB). Try a smaller image." := by
  exact ⟨by decide, by decide, by decide⟩

/-- Claim C8 as amended: a source over the 20 MB cap fails before any
decode is attempted (the result is the same for every decode outcome),
with the oversize error, in both contexts — in the privileged context
provided its declared content type indicates an image (a non-image type
fails earlier with the type-mismatch error), in the page context
unconditionally. -/
theorem c8_amended_size_gate :
    (∀ (url : String) (resp : Response) (rdr : Option String),
      (jsStartsWith url "data:" ∨ resp.ok = true) →
      jsStartsWith resp.blob.type "image/" = true →
      MAX_SIZE < resp.blob.size →
      imageUrlToBase64 url resp rdr =
        .error "Image is too large (over 20 MB). Try a smaller image.") ∧
    (∀ (url : String) (resp : Response) (rdr : Option String),
      (jsStartsWith url "data:" ∨ resp.ok = true) →
      20 * 1024 * 1024 < resp.blob.size →
      fetchImageAsBase64 url resp rdr = .error "Image is too large (over 20 MB).") := by
  constructor
  · intro url resp rdr hfetch htype hsize
    unfold imageUrlToBase64
    rw [if_neg (not_fetch_guard hfetch), if_neg (by rw [not_not]; exact htype), if_pos hsize]
  · intro url resp rdr hfetch hsize
    unfold fetchImageAsBase64
    rw [if_neg (not_fetch_guard hfetch), if_pos hsize]

/-- Witness for the amended C8 at a concrete oversized response in each
context. -/
theorem c8_amended_size_gate_witness :
    imageUrlToBase64 "https://example.com/big"
        ⟨true, 200, ⟨"image/png", 20 * 1024 * 1024 + 1, .error "decode failed"⟩⟩ none =
      .error "Image is too large (over 20 MB). Try a smaller image." ∧
    fetchImageAsBase64 "https://example.com/big"
        ⟨true, 200, ⟨"image/png", 20 * 1024 * 1024 + 1, .error "decode failed"⟩⟩ none =
      .error "Image is too large (over 20 MB)." :=
  ⟨c8_amended_size_gate.1 "https://example.com/big"
      ⟨true, 200, ⟨"image/png", 20 * 1024 * 1024 + 1, .error "decode failed"⟩⟩ none
      (Or.inr rfl) (by decide) (by decide),
   c8_amended_size_gate.2 "https://example.com/big"
      ⟨true, 200, ⟨"image/png", 20 * 1024 * 1024 + 1, .error "decode failed"⟩⟩ none
      (Or.inr rfl) (by decide)⟩

/-- Token usage block of an API response (src/unnamed/part_000): each
field may be absent; absent and zero are both JS-falsy and read as 0. -/
structure Usage where
  prompt_tokens : Option ℕ
  completion_tokens : Option ℕ
  total_tokens : Option ℕ
deriving DecidableEq

/-- The tokens sub-record built by calculateCost. -/
structure TokenCounts where
  prompt : ℕ
  completion : ℕ
  total : ℕ
deriving DecidableEq

/-- The cost record returned by calculateCost (src/unnamed/part_000
lines 140-150). -/
structure Cost where
  totalUsd : ℚ
  costCents : String
  inputCost : ℚ
  outputCost : ℚ
  tokens : TokenCounts
deriving DecidableEq

/-- Pricing per 1M input tokens (src/unnamed/part_000 line 17). -/
def DEFAULT_INPUT_PRICE_PER_MILLION : ℚ := 0.05

/-- Pricing per 1M output tokens (src/unnamed/part_000 line 18). -/
def DEFAULT_OUTPUT_PRICE_PER_MILLION : ℚ := 0.40

/-- Four decimal digits of a natural number below or above 1000,
zero-padded on the left, for the fractional part of toFixed(4). -/
def padFour (m : ℕ) : String :=
  if m < 10 then "000" ++ toString m
  else if m < 100 then "00" ++ toString m
  else if m < 1000 then "0" ++ toString m
  else toString m

/-- JavaScript Number.prototype.toFixed(4) on a nonnegative exact
rational: round to the nearest multiple of 1/10000, ties toward the
larger value, and print with exactly four fractional digits. -/
def toFixedFour (q : ℚ) : String :=
  toString (jround (q * 10000) / 10000) ++ "." ++ (jround (q * 10000) % 10000).toNat.repr

/-- toFixedFour with the left zero-padding of the fractional digits. -/
def toFixedFourPadded (q : ℚ) : String :=
  toString (jround (q * 10000) / 10000) ++ "." ++ padFour (jround (q * 10000) % 10000).toNat

/-- src/unnamed/part_000, calculateCost (lines 128-151): estimated USD
cost from token usage at the fixed per-million prices, plus the
human-readable cents string (value × 100, toFixed(4), trailing ¢). -/
def calculateCost (usage : Usage) : Cost :=
  { totalUsd := ((usage.prompt_tokens.getD 0 : ℚ) / 1000000) * DEFAULT_INPUT_PRICE_PER_MILLION +
      ((usage.completion_tokens.getD 0 : ℚ) / 1000000) * DEFAULT_OUTPUT_PRICE_PER_MILLION
    costCents :=
      toFixedFourPadded
        ((((usage.prompt_tokens.getD 0 : ℚ) / 1000000) * DEFAULT_INPUT_PRICE_PER_MILLION +
          ((usage.completion_tokens.getD 0 : ℚ) / 1000000) * DEFAULT_OUTPUT_PRICE_PER_MILLION) *
          100) ++ "¢"
    inputCost := ((usage.prompt_tokens.getD 0 : ℚ) / 1000000) * DEFAULT_INPUT_PRICE_PER_MILLION
    outputCost :=
      ((usage.completion_tokens.getD 0 : ℚ) / 1000000) * DEFAULT_OUTPUT_PRICE_PER_MILLION
    tokens :=
      ⟨usage.prompt_tokens.getD 0, usage.completion_tokens.getD 0, usage.total_tokens.getD 0⟩ }

/-- Claim C5: for every usage record with prompt_tokens p and
completion_tokens c, totalUsd equals p/1e6 × 0.05 + c/1e6 × 0.40, and
costCents is that value × 100 formatted to 4 decimal places with a
trailing cent sign. -/
theorem c5_cost_formula (p c : ℕ) (t : Option ℕ) :
    (calculateCost ⟨some p, some c, t⟩).totalUsd =
      (p : ℚ) / 1000000 * 0.05 + (c : ℚ) / 1000000 * 0.40 ∧
    (calculateCost ⟨some p, some c, t⟩).costCents =
      toFixedFourPadded (((p : ℚ) / 1000000 * 0.05 + (c : ℚ) / 1000000 * 0.40) * 100) ++
        "¢" :=
  ⟨rfl, rfl⟩

/-- A value stored in a JS object field of the persisted state. -/
inductive JSVal where
  | str (s : String)
  | num (n : ℚ)
  | boolean (b : Bool)
deriving DecidableEq

/-- A JS object as a partial map from field names to values. -/
def Obj := String → Option JSVal

/-- The empty object. -/
def emptyObj : Obj := fun _ => none

/-- JS object spread: in an object literal of the shape
braces of spread a then spread b, fields of b override fields of a. -/
def mergeObj (a b : Obj) : Obj := fun k =>
  match b k with
  | some v => some v
  | none => a k

/-- One persisted generation-log record (src/lib/utils.js lines 121-139
and the entries built in src/service-worker.js lines 70-92). -/
structure LogEntry where
  status : String
  imageUrl : String
  altText : Option String
  usage : Option Usage
  cost : Option Cost
  error : Option String
  timestamp : Option ℕ
deriving DecidableEq

/-- chrome.storage.local as used by this extension: exactly the keys the
code reads and writes. -/
structure Storage where
  apiKey : Option String
  apiKeyValidated : Option Bool
  settings : Option Obj
  metadata : Option Obj
  generationLog : Option (List LogEntry)

/-- src/lib/utils.js, saveSettings (lines 103-115): read the settings
and metadata objects, spread the partial update over the settings,
restamp lastUpdated and version on the metadata, and write exactly
those two keys back. -/
def saveSettings (st : Storage) (updates : Obj) (now : ℚ) : Storage :=
  { st with
    settings := some (mergeObj (st.settings.getD emptyObj) updates),
    metadata := some (fun k =>
      if k = "lastUpdated" then some (.num now)
      else if k = "version" then some (.str "1.0.0")
      else (st.metadata.getD emptyObj) k) }

/-- Log cap (src/lib/utils.js line 119). -/
def MAX_LOG_ENTRIES : ℕ := 10

/-- JS truthiness of the timestamp field: present and nonzero. -/
def truthyTimestamp : Option ℕ → Bool
  | some n => n != 0
  | none => false

/-- The spread of src/lib/utils.js line 133: keep the caller's timestamp
when truthy, else stamp Date.now(). -/
def stampTimestamp (e : LogEntry) (now : ℕ) : LogEntry :=
  { e with timestamp := if truthyTimestamp e.timestamp then e.timestamp else some now }

/-- src/lib/utils.js, addLogEntry (lines 129-139): read the log
(defaulting to empty), unshift the stamped entry, trim to the cap,
write back. -/
def addLogEntry (st : Storage) (entry : LogEntry) (now : ℕ) : Storage :=
  { st with
    generationLog :=
      some ((stampTimestamp entry now :: st.generationLog.getD []).take MAX_LOG_ENTRIES) }

/-- src/lib/utils.js, getLog (lines 145-151). -/
def getLog (st : Storage) : List LogEntry :=
  st.generationLog.getD []

/-- src/lib/utils.js, clearLog (lines 156-160). -/
def clearLog (st : Storage) : Storage :=
  { st with generationLog := some [] }

/-- Sequential addLogEntry calls, for the 11-append scenario. -/
def appendEntries (st : Storage) (es : List (LogEntry × ℕ)) : Storage :=
  es.foldl (fun s p => addLogEntry s p.1 p.2) st

/-- Claim C4: from an empty log, 11 sequential appends leave exactly
the 10 most recent entries newest first; in general each append
prepends the stamped entry and truncates to at most 10. -/
theorem c4_log_cap
    (e1 e2 e3 e4 e5 e6 e7 e8 e9 e10 e11 : LogEntry)
    (t1 t2 t3 t4 t5 t6 t7 t8 t9 t10 t11 : ℕ) :
    getLog (appendEntries ⟨none, none, none, none, none⟩
        [(e1, t1), (e2, t2), (e3, t3), (e4, t4), (e5, t5), (e6, t6), (e7, t7), (e8, t8),
         (e9, t9), (e10, t10), (e11, t11)]) =
      [stampTimestamp e11 t11, stampTimestamp e10 t10, stampTimestamp e9 t9,
       stampTimestamp e8 t8, stampTimestamp e7 t7, stampTimestamp e6 t6,
       stampTimestamp e5 t5, stampTimestamp e4 t4, stampTimestamp e3 t3,
       stampTimestamp e2 t2] ∧
    (∀ (st : Storage) (e : LogEntry) (now : ℕ),
      getLog (addLogEntry st e now) = (stampTimestamp e now :: getLog st).take 10 ∧
      (getLog (addLogEntry st e now)).length ≤ 10) := by
  constructor
  · rfl
  · intro st e now
    refine ⟨rfl, ?_⟩
    exact List.length_take_le 10 _

/-- Claim C9: saveSettings touches only the settings and metadata
storage keys — apiKey, apiKeyValidated and generationLog are unchanged
by any call — and any settings field not named in the update keeps its
previous value. -/
theorem c9_save_settings_frame (st : Storage) (updates : Obj) (now : ℚ) :
    (saveSettings st updates now).apiKey = st.apiKey ∧
    (saveSettings st updates now).apiKeyValidated = st.apiKeyValidated ∧
    (saveSettings st updates now).generationLog = st.generationLog ∧
    ∀ k, updates k = none →
      ((saveSettings st updates now).settings.getD emptyObj) k =
        (st.settings.getD emptyObj) k := by
  refine ⟨rfl, rfl, rfl, ?_⟩
  intro k hk
  simp [saveSettings, mergeObj, hk]

/-- Witness for C9: a concrete empty partial update leaves the model
field of the settings untouched. -/
theorem c9_save_settings_frame_witness :
    ((saveSettings ⟨some "sk-1", some true, none, none, none⟩ emptyObj 5).settings.getD
        emptyObj) "model" =
      ((⟨some "sk-1", some true, none, none, none⟩ : Storage).settings.getD emptyObj) "model" :=
  (c9_save_settings_frame ⟨some "sk-1", some true, none, none, none⟩ emptyObj 5).2.2.2
    "model" rfl

/-- Claim C10: every stored log entry carries a timestamp — a truthy
caller timestamp is preserved, otherwise the insertion time is stamped —
and the all-entries-have-timestamps invariant is maintained by every
log operation (append and clear). -/
theorem c10_timestamp_invariant :
    (∀ (st : Storage) (e : LogEntry) (now : ℕ),
      (getLog (addLogEntry st e now)).head? = some (stampTimestamp e now) ∧
      (truthyTimestamp e.timestamp = true → (stampTimestamp e now).timestamp = e.timestamp) ∧
      (truthyTimestamp e.timestamp = false → (stampTimestamp e now).timestamp = some now) ∧
      (stampTimestamp e now).timestamp.isSome = true ∧
      ((∀ x ∈ getLog st, x.timestamp.isSome = true) →
        ∀ x ∈ getLog (addLogEntry st e now), x.timestamp.isSome = true)) ∧
    (∀ (st : Storage), ∀ x ∈ getLog (clearLog st), x.timestamp.isSome = true) := by
  constructor
  · intro st e now
    refine ⟨?_, ?_, ?_, ?_, ?_⟩
    · rfl
    · intro ht
      simp [stampTimestamp, ht]
    · intro ht
      simp [stampTimestamp, ht]
    · unfold stampTimestamp truthyTimestamp
      cases h : e.timestamp
      · simp
      · simp only []
        split <;> simp
    · intro hinv x hx
      have hx2 : x ∈ stampTimestamp e now :: getLog st := by
        have := List.take_subset MAX_LOG_ENTRIES (stampTimestamp e now :: getLog st)
        exact this hx
      rcases List.mem_cons.mp hx2 with hx3 | hx3
      · subst hx3
        unfold stampTimestamp truthyTimestamp
        cases h : e.timestamp
        · simp
        · simp only []
          split <;> simp
      · exact hinv x hx3
  · intro st x hx
    simp [getLog, clearLog] at hx

/-- Witness for C10 at a concrete entry with no caller timestamp. -/
theorem c10_timestamp_invariant_witness :
    (stampTimestamp ⟨"error", "u", none, none, none, some "boom", none⟩ 42).timestamp =
      some 42 :=
  ((c10_timestamp_invariant.1 ⟨none, none, none, none, none⟩
      ⟨"error", "u", none, none, none, some "boom", none⟩ 42).2.2.1) rfl

/-- JavaScript String.prototype.trim, modelled over the character list. -/
def jsTrim (s : String) : String :=
  ⟨((s.data.dropWhile Char.isWhitespace).reverse.dropWhile Char.isWhitespace).reverse⟩

/-- Default model identifier (src/unnamed/part_000 line 13). -/
def DEFAULT_MODEL : String := "gpt-5-nano"

/-- Default output-token budget (src/unnamed/part_000 line 14). -/
def DEFAULT_MAX_TOKENS : ℕ := 1024

/-- Default prompt text (src/unnamed/part_000 lines 9-11). -/
def DEFAULT_PROMPT : String :=
  "Describe this image in one short, clear sentence suitable for HTML alt text. " ++
  "Do not start with \"This image shows\" or similar. Output only the alt text, nothing else."

/-- Effective settings handed to generateAltText by its callers: the
empty string and zero stand for the JS-falsy absent values. -/
structure ApiSettings where
  apiKey : String
  model : String
  maxTokens : ℕ
  customPrompt : String
deriving DecidableEq

/-- One element of a segment-list message content. -/
structure ContentPart where
  type : String
  text : Option String
deriving DecidableEq

/-- choices[0].message.content: a plain string, an ordered segment
list, or some other JSON shape. -/
inductive MessageContent where
  | str (s : String)
  | parts (ps : List ContentPart)
  | other
deriving DecidableEq

/-- One element of the response's choices array. -/
structure Choice where
  content : Option MessageContent
  finish_reason : Option String
deriving DecidableEq

/-- The chat-completions response as read by generateAltText: HTTP ok
flag and status, the optional error.message of the JSON body, the
choices array and the usage block. -/
structure ApiResponse where
  ok : Bool
  status : ℕ
  errorMessage : Option String
  choices : List Choice
  usage : Option Usage
deriving DecidableEq

/-- JS truthiness of an optional string: present and non-empty. -/
def truthyStr : Option String → Bool
  | some s => s != ""
  | none => false

/-- The caption parse of src/unnamed/part_000 lines 95-106: a plain
string is trimmed; a segment list keeps the parts whose type is text
with truthy text, concatenates their texts in order and trims; any
other shape yields the empty string. -/
def parseAltText (content : Option MessageContent) : String :=
  match content with
  | some (.str s) => jsTrim s
  | some (.parts ps) =>
    jsTrim (String.join
      ((ps.filter (fun p => p.type == "text" && truthyStr p.text)).map (fun p => p.text.getD "")))
  | _ => ""

/-- The request body of src/unnamed/part_000 lines 62-77: model, token
cap and prompt resolved against the defaults via JS-falsy checks, the
data URL, and the fixed low-detail hint. The response to this request
is an environmental input of generateAltText. -/
structure RequestBody where
  model : String
  max_completion_tokens : ℕ
  promptText : String
  imageUrl : String
  detail : String
deriving DecidableEq

/-- Request construction mirror of src/unnamed/part_000 lines 58-77. -/
def buildRequestBody (base64DataUrl : String) (settings : ApiSettings) : RequestBody :=
  { model := if settings.model = "" then DEFAULT_MODEL else settings.model
    max_completion_tokens :=
      if settings.maxTokens = 0 then DEFAULT_MAX_TOKENS else settings.maxTokens
    promptText := if settings.customPrompt = "" then DEFAULT_PROMPT else settings.customPrompt
    imageUrl := base64DataUrl
    detail := "low" }

/-- The success value of generateAltText. -/
structure GenResult where
  altText : String
  usage : Usage
  cost : Cost
deriving DecidableEq

/-- src/unnamed/part_000, generateAltText (lines 52-123): fail without
a network call when no key is configured; on a non-ok response fail
with the API-supplied message when truthy, else a status-coded one;
parse the caption; fail on finish_reason length; fail on an empty
trimmed caption; otherwise succeed with usage and computed cost. -/
def generateAltText (base64DataUrl : String) (settings : ApiSettings) (resp : ApiResponse) :
    Except String GenResult :=
  if settings.apiKey = "" then
    .error "API key not configured. Open EveryAlt settings to add your OpenAI key."
  else if resp.ok = false then
    .error
      (match resp.errorMessage with
       | some m => if m = "" then "OpenAI API returned " ++ toString resp.status else m
       | none => "OpenAI API returned " ++ toString resp.status)
  else if resp.choices.head?.bind Choice.finish_reason = some "length" then
    .error "Response was cut off (max tokens reached). Increase max tokens in settings."
  else if parseAltText (resp.choices.head?.bind Choice.content) = "" then
    .error "OpenAI returned an empty response. Try again."
  else
    .ok ⟨parseAltText (resp.choices.head?.bind Choice.content),
         resp.usage.getD ⟨none, none, none⟩,
         calculateCost (resp.usage.getD ⟨none, none, none⟩)⟩

/-- Claim C6: generateAltText never returns a success outcome when the
response's finish_reason is length (even with partial text) or when the
caption — text segments concatenated, then trimmed — is empty. -/
theorem c6_no_success_on_truncation_or_empty (d : String) (s : ApiSettings)
    (resp : ApiResponse) :
    (resp.choices.head?.bind Choice.finish_reason = some "length" →
      (generateAltText d s resp).isOk = false) ∧
    (parseAltText (resp.choices.head?.bind Choice.content) = "" →
      (generateAltText d s resp).isOk = false) := by
  constructor
  · intro h
    unfold generateAltText
    split
    · rfl
    split
    · rfl
    rfl
  · intro h
    unfold generateAltText
    split
    · rfl
    split
    · rfl
    split
    · rfl
    rfl

/-- Witness for C6: a truncated response with partial text, and a
stop-finished response with an empty caption, both fail. -/
theorem c6_no_success_on_truncation_or_empty_witness :
    (generateAltText "data:image/jpeg;base64,AA" ⟨"sk-1", "", 0, ""⟩
        ⟨true, 200, none, [⟨some (.str "A partial"), some "length"⟩], none⟩).isOk = false ∧
    (generateAltText "data:image/jpeg;base64,AA" ⟨"sk-1", "", 0, ""⟩
        ⟨true, 200, none, [⟨none, some "stop"⟩], none⟩).isOk = false :=
  ⟨(c6_no_success_on_truncation_or_empty "data:image/jpeg;base64,AA" ⟨"sk-1", "", 0, ""⟩
      ⟨true, 200, none, [⟨some (.str "A partial"), some "length"⟩], none⟩).1 rfl,
   (c6_no_success_on_truncation_or_empty "data:image/jpeg;base64,AA" ⟨"sk-1", "", 0, ""⟩
      ⟨true, 200, none, [⟨none, some "stop"⟩], none⟩).2 rfl⟩

/-- The resolved pair returned by validateApiKey. -/
structure ValidationResult where
  valid : Bool
  message : String
deriving DecidableEq

/-- The models-endpoint response as read by validateApiKey. -/
structure FetchResp where
  ok : Bool
  status : ℕ
deriving DecidableEq

/-- src/unnamed/part_000, validateApiKey (lines 25-44): empty-ish input
fails immediately; then the fetch outcome (an exception carrying the
network error message, or a response) is classified as accepted,
rejected-unauthorized (401) or other status. The function is total —
the try/catch means it always resolves to a pair and never throws. -/
def validateApiKey (apiKey : Option String) (net : Except String FetchResp) :
    ValidationResult :=
  match apiKey with
  | none => ⟨false, "API key is empty."⟩
  | some k =>
    if jsTrim k = "" then ⟨false, "API key is empty."⟩
    else
      match net with
      | .error e => ⟨false, "Network error: " ++ e⟩
      | .ok r =>
        if r.ok then ⟨true, "API key is valid."⟩
        else if r.status = 401 then ⟨false, "Invalid API key. Check that the key is correct."⟩
        else ⟨false, "Validation returned status " ++ (toString r.status ++ ". Try again.")⟩

lemma head?_append_left {α : Type} {l₁ l₂ : List α} {a : α} (h : l₁.head? = some a) :
    (l₁ ++ l₂).head? = some a := by
  cases l₁
  · simp at h
  · simpa using h

lemma string_ne_of_head {s t : String} {c d : Char} (hs : s.data.head? = some c)
    (ht : t.data.head? = some d) (hcd : c ≠ d) : s ≠ t := by
  intro he
  subst he
  rw [hs] at ht
  injection ht with hcd2
  exact hcd hcd2

lemma append_ne_of_head (c d : Char) {a x t : String} (ha : a.data.head? = some c)
    (ht : t.data.head? = some d) (hcd : c ≠ d) : a ++ x ≠ t := by
  apply string_ne_of_head _ ht hcd
  rw [String.data_append]
  exact head?_append_left ha

lemma vk_none (net : Except String FetchResp) :
    validateApiKey none net = ⟨false, "API key is empty."⟩ := rfl

lemma vk_blank {k : String} (h : jsTrim k = "") (net : Except String FetchResp) :
    validateApiKey (some k) net = ⟨false, "API key is empty."⟩ := by
  unfold validateApiKey
  dsimp only
  rw [if_pos h]

lemma vk_neterr {k : String} (h : ¬jsTrim k = "") (e : String) :
    validateApiKey (some k) (.error e) = ⟨false, "Network error: " ++ e⟩ := by
  unfold validateApiKey
  dsimp only
  rw [if_neg h]

lemma vk_accept {k : String} (h : ¬jsTrim k = "") {r : FetchResp} (hok : r.ok = true) :
    validateApiKey (some k) (.ok r) = ⟨true, "API key is valid."⟩ := by
  unfold validateApiKey
  dsimp only
  rw [if_neg h, if_pos hok]

lemma vk_unauth {k : String} (h : ¬jsTrim k = "") {r : FetchResp} (hok : ¬r.ok = true)
    (hst : r.status = 401) :
    validateApiKey (some k) (.ok r) =
      ⟨false, "Invalid API key. Check that the key is correct."⟩ := by
  unfold validateApiKey
  dsimp only
  rw [if_neg h, if_neg hok, if_pos hst]

lemma vk_other {k : String} (h : ¬jsTrim k = "") {r : FetchResp} (hok : ¬r.ok = true)
    (hst : ¬r.status = 401) :
    validateApiKey (some k) (.ok r) =
      ⟨false, "Validation returned status " ++ (toString r.status ++ ". Try again.")⟩ := by
  unfold validateApiKey
  dsimp only
  rw [if_neg h, if_neg hok, if_neg hst]

/-- Claim C7: validateApiKey always resolves to one of exactly five
status/message pairs — empty input, accepted, rejected-unauthorized,
other non-success status, network failure — whose user-facing messages
are pairwise distinct, and an empty or whitespace-only input is
rejected with the empty-input message for every possible network
outcome (so without any network call). Totality of the Lean function
models the never-throws contract. -/
theorem c7_validate_classification :
    (∀ (key : Option String) (net : Except String FetchResp),
      validateApiKey key net = ⟨false, "API key is empty."⟩ ∨
      validateApiKey key net = ⟨true, "API key is valid."⟩ ∨
      validateApiKey key net = ⟨false, "Invalid API key. Check that the key is correct."⟩ ∨
      (∃ st : ℕ, validateApiKey key net =
        ⟨false, "Validation returned status " ++ (toString st ++ ". Try again.")⟩) ∨
      (∃ e : String, validateApiKey key net = ⟨false, "Network error: " ++ e⟩)) ∧
    (("API key is empty." ≠ "API key is valid." ∧
      "API key is empty." ≠ "Invalid API key. Check that the key is correct." ∧
      "API key is valid." ≠ "Invalid API key. Check that the key is correct.") ∧
     (∀ st : ℕ,
      "Validation returned status " ++ (toString st ++ ". Try again.") ≠ "API key is empty." ∧
      "Validation returned status " ++ (toString st ++ ". Try again.") ≠ "API key is valid." ∧
      "Validation returned status " ++ (toString st ++ ". Try again.") ≠
        "Invalid API key. Check that the key is correct.") ∧
     (∀ e : String,
      "Network error: " ++ e ≠ "API key is empty." ∧
      "Network error: " ++ e ≠ "API key is valid." ∧
      "Network error: " ++ e ≠ "Invalid API key. Check that the key is correct.") ∧
     (∀ (st : ℕ) (e : String),
      "Validation returned status " ++ (toString st ++ ". Try again.") ≠
        "Network error: " ++ e)) ∧
    (∀ (s : String) (net : Except String FetchResp),
      jsTrim s = "" → validateApiKey (some s) net = ⟨false, "API key is empty."⟩) ∧
    (∀ net : Except String FetchResp,
      validateApiKey none net = ⟨false, "API key is empty."⟩) := by
  refine ⟨?_, ⟨⟨by decide, by decide, by decide⟩, ?_, ?_, ?_⟩, ?_, ?_⟩
  · intro key net
    rcases key with _ | k
    · exact Or.inl (vk_none net)
    by_cases htrim : jsTrim k = ""
    · exact Or.inl (vk_blank htrim net)
    rcases net with e | r
    · exact Or.inr (Or.inr (Or.inr (Or.inr ⟨e, vk_neterr htrim e⟩)))
    by_cases hok : r.ok = true
    · exact Or.inr (Or.inl (vk_accept htrim hok))
    by_cases hst : r.status = 401
    · exact Or.inr (Or.inr (Or.inl (vk_unauth htrim hok hst)))
    · exact Or.inr (Or.inr (Or.inr (Or.inl ⟨r.status, vk_other htrim hok hst⟩)))
  · intro st
    exact ⟨append_ne_of_head 'V' 'A' (by decide) (by decide) (by decide),
           append_ne_of_head 'V' 'A' (by decide) (by decide) (by decide),
           append_ne_of_head 'V' 'I' (by decide) (by decide) (by decide)⟩
  · intro e
    exact ⟨append_ne_of_head 'N' 'A' (by decide) (by decide) (by decide),
           append_ne_of_head 'N' 'A' (by decide) (by decide) (by decide),
           append_ne_of_head 'N' 'I' (by decide) (by decide) (by decide)⟩
  · intro st e
    apply append_ne_of_head 'V' 'N' (by decide) _ (by decide)
    rw [String.data_append]
    exact head?_append_left (by decide)
  · intro s net hs
    exact vk_blank hs net
  · intro net
    rfl

/-- Witness for C7: a whitespace-only key is rejected with the
empty-input message even when the network would have failed. -/
theorem c7_validate_classification_witness :
    validateApiKey (some "   ") (Except.error "socket hang up") =
      ⟨false, "API key is empty."⟩ :=
  c7_validate_classification.2.2.1 "   " (Except.error "socket hang up") (by decide)

/-- A signal or store write emitted by the dispatch orchestrator, in
program order. -/
inductive Action where
  | showLoading
  | showResult (altText : String) (imageUrl : String)
  | showError (message : String) (actionUrl : Option String)
  | addLog (entry : LogEntry)
deriving DecidableEq

/-- Environment of one context-menu pipeline run
(src/service-worker.js lines 26-99): the image URL, the awaited
getSettings result (defaults already applied), the fetch/decode/encode
environments of the privileged and the page-context normalization
attempts, the chrome.runtime.lastError outcome of the content-script
round trip, the chat-completions response, and the clock. -/
structure PipelineEnv where
  srcUrl : String
  settings : ApiSettings
  swResp : Response
  swReader : Option String
  csLastError : Option String
  csResp : Response
  csReader : Option String
  apiResp : ApiResponse
  now : ℕ

/-- src/service-worker.js, requestBase64FromContentScript (lines
225-243): a lastError rejects with its message; otherwise the content
script runs fetchImageAsBase64 and answers success with the data, or
failure with its error message, replaced by a fixed fallback text when
falsy. -/
def requestBase64FromContentScript (env : PipelineEnv) : Except String String :=
  match env.csLastError with
  | some e => .error e
  | none =>
    match fetchImageAsBase64 env.srcUrl env.csResp env.csReader with
    | .ok out => .ok out.dataUrl
    | .error e => .error (if e = "" then "Content script could not fetch image." else e)

/-- Step 2 of the click handler (src/service-worker.js lines 49-59):
privileged normalization first, page-context fallback on failure, both
failures combined into one error whose message prefers the fallback's
(when truthy) over the privileged one's. -/
def fetchStep (env : PipelineEnv) : Except String String :=
  match imageUrlToBase64 env.srcUrl env.swResp env.swReader with
  | .ok out => .ok out.dataUrl
  | .error fetchErr =>
    match requestBase64FromContentScript env with
    | .ok d => .ok d
    | .error csErr =>
      .error ("Could not load image: " ++ (if csErr = "" then fetchErr else csErr))

/-- The shared catch block of the click handler (src/service-worker.js
lines 86-98): write an error LogEntry, then send the error signal. -/
def errorOutcome (env : PipelineEnv) (st : Storage) (emsg : String) : Storage × List Action :=
  let entry : LogEntry :=
    ⟨"error", env.srcUrl, none, none, none,
     some (if emsg = "" then "Unknown error" else emsg), none⟩
  (addLogEntry st entry env.now,
   [Action.showLoading,
    Action.addLog (stampTimestamp entry env.now),
    Action.showError (if emsg = "" then "An unexpected error occurred." else emsg) none])

/-- The context-menu click handler (src/service-worker.js lines 26-99)
as a function from its environment and the stored state to the new
state and the ordered trace of signals and store writes. The deep link
chrome.runtime.getURL of the options page is modelled by its path. -/
def runPipeline (env : PipelineEnv) (st : Storage) : Storage × List Action :=
  if env.settings.apiKey = "" then
    (st,
     [Action.showLoading,
      Action.showError "API key not configured. Click to open EveryAlt settings."
        (some "options.html")])
  else
    match fetchStep env with
    | .error emsg => errorOutcome env st emsg
    | .ok dataUrl =>
      match generateAltText dataUrl env.settings env.apiResp with
      | .error emsg => errorOutcome env st emsg
      | .ok r =>
        let entry : LogEntry :=
          ⟨"success", env.srcUrl, some r.altText, some r.usage, some r.cost, none, none⟩
        (addLogEntry st entry env.now,
         [Action.showLoading,
          Action.addLog (stampTimestamp entry env.now),
          Action.showResult r.altText env.srcUrl])

lemma errorOutcome_spec (env : PipelineEnv) (st : Storage) (emsg : String) :
    ∀ (i : ℕ) (m : String) (au : Option String),
      (errorOutcome env st emsg).2[i]? = some (Action.showError m au) →
      ∃ e : LogEntry,
        1 < i ∧
        (errorOutcome env st emsg).2[1]? = some (Action.addLog e) ∧
        e.status = "error" ∧
        (getLog (errorOutcome env st emsg).1).head? = some e := by
  intro i m au h
  refine ⟨stampTimestamp
    ⟨"error", env.srcUrl, none, none, none,
     some (if emsg = "" then "Unknown error" else emsg), none⟩ env.now, ?_, rfl, rfl, rfl⟩
  rcases i with _ | _ | _ | i
  · simp [errorOutcome] at h
  · simp [errorOutcome] at h
  · omega
  · simp [errorOutcome] at h

/-- Concrete environment with no API key configured. -/
def noKeyEnv : PipelineEnv :=
  ⟨"https://example.com/i.png", ⟨"", "", 0, ""⟩,
   ⟨true, 200, ⟨"image/png", 1, .error "boom"⟩⟩, none, none,
   ⟨true, 200, ⟨"image/png", 1, .error "boom"⟩⟩, none,
   ⟨true, 200, none, [], none⟩, 7⟩

/-- Claim C3 counterexample: with no credential configured (a step-2
failure) the click handler emits the error signal without writing any
LogEntry — the trace holds no store write and the stored log is
untouched. -/
theorem c3_counterexample :
    (runPipeline noKeyEnv ⟨none, none, none, none, none⟩).2 =
      [Action.showLoading,
       Action.showError "API key not configured. Click to open EveryAlt settings."
         (some "options.html")] ∧
    (runPipeline noKeyEnv ⟨none, none, none, none, none⟩).1.generationLog = none ∧
    ∀ e : LogEntry, Action.addLog e ∉ (runPipeline noKeyEnv ⟨none, none, none, none, none⟩).2 := by
  refine ⟨rfl, rfl, ?_⟩
  intro e he
  rw [show (runPipeline noKeyEnv ⟨none, none, none, none, none⟩).2 =
    [Action.showLoading,
     Action.showError "API key not configured. Click to open EveryAlt settings."
       (some "options.html")] from rfl] at he
  simp at he

/-- Claim C3 as amended: for every pipeline run with a configured
credential, any failure at steps 3-4 (normalization failing in both
contexts, or the Captioning Client failing) writes an error LogEntry to
the log store before the error signal is emitted: every error signal in
the trace is preceded by the store write of that error entry, which is
also the head of the stored log; the step-2 missing-credential failure
alone emits its error signal without writing a LogEntry. -/
theorem c3_amended_log_before_error (env : PipelineEnv) (st : Storage)
    (hkey : env.settings.apiKey ≠ "") :
    ∀ (i : ℕ) (m : String) (au : Option String),
      (runPipeline env st).2[i]? = some (Action.showError m au) →
      ∃ e : LogEntry,
        1 < i ∧
        (runPipeline env st).2[1]? = some (Action.addLog e) ∧
        e.status = "error" ∧
        (getLog (runPipeline env st).1).head? = some e := by
  intro i m au h
  unfold runPipeline at h ⊢
  rw [if_neg hkey] at h ⊢
  split at h
  next emsg heq =>
    exact errorOutcome_spec env st emsg i m au h
  next dataUrl heq =>
    split at h
    next emsg2 heq2 =>
      exact errorOutcome_spec env st emsg2 i m au h
    next r heq2 =>
      exfalso
      rcases i with _ | _ | _ | i <;> simp at h

/-- Concrete environment with a configured key whose privileged fetch
fails with HTTP 500 and whose content-script round trip fails with a
lastError. -/
def keyedFailEnv : PipelineEnv :=
  ⟨"https://example.com/i.png", ⟨"sk-1", "", 0, ""⟩,
   ⟨false, 500, ⟨"image/png", 1, .error "boom"⟩⟩, none, some "no tab",
   ⟨true, 200, ⟨"image/png", 1, .error "boom"⟩⟩, none,
   ⟨true, 200, none, [], none⟩, 7⟩

/-- Witness for the amended C3 at the concrete failing run. -/
theorem c3_amended_log_before_error_witness :
    ∃ e : LogEntry,
      1 < 2 ∧
      (runPipeline keyedFailEnv ⟨none, none, none, none, none⟩).2[1]? =
        some (Action.addLog e) ∧
      e.status = "error" ∧
      (getLog (runPipeline keyedFailEnv ⟨none, none, none, none, none⟩).1).head? = some e :=
  c3_amended_log_before_error keyedFailEnv ⟨none, none, none, none, none⟩
    (by decide) 2 "Could not load image: no tab" none (by decide)

end EveryAlt
